import Mathlib

/-!
Shallow embedding of the `ems` home energy-management system
(collectors with backoff/quota scheduling, decision engine, actuation
dispatcher), together with theorems settling the specification claims.

Prices are modelled as exact rationals (`ℚ`); the Python floats in the
source only ever carry values for which float and rational arithmetic
agree on the claims considered here.
-/

namespace Ems

/-! ## Decision engine (src/ems/loops/decision.py) -/

/-- Decision modes, the `Literal["CHARGE", "DISCHARGE", "HOLD"]` of
`DecisionResult`. -/
inductive Mode
  | CHARGE
  | DISCHARGE
  | HOLD
deriving DecidableEq, Repr

/-- The `reason` string of a `DecisionResult`, modelled symbolically: each
constructor records the branch that produced it and the numeric data the
Python f-string interpolates (the textual formatting itself is not
modelled). -/
inductive Reason
  | initialState
  | missingCurrentPrice
  | missingTodayForecast
  | chargeBranch (price p25 spread : ℚ)
  | dischargeBranch (price p75 spread : ℚ)
  | holdBranch (price p25 p75 spread : ℚ)
deriving DecidableEq, Repr

/-- The `DecisionResult` TypedDict. -/
structure DecisionResult where
  mode : Mode
  target_w : Int
  reason : Reason
deriving DecidableEq, Repr

/-- The initial `_current_result` set in `DecisionLoop.__init__`. -/
def initialDecision : DecisionResult :=
  { mode := .HOLD, target_w := 0, reason := .initialState }

/-- Python `int()` applied to a rational: truncation toward zero. -/
def pyInt (x : ℚ) : Int :=
  if 0 ≤ x then ⌊x⌋ else -⌊-x⌋

/-- Python list indexing `l[i]`: nonnegative indices from the front,
negative indices from the back, `none` models an `IndexError`. -/
def pyGet (l : List ℚ) (i : Int) : Option ℚ :=
  if 0 ≤ i then l.get? i.toNat
  else if -i ≤ (l.length : Int) then l.get? (l.length - (-i).toNat)
  else none

/-- Model of `DecisionLoop._percentile`: `none` models the `ValueError` on an empty
list (and an `IndexError` on an out-of-range computed index). -/
def percentile (values : List ℚ) (q : ℚ) : Option ℚ :=
  if values.isEmpty then none
  else if values.length = 1 then values.get? 0
  else
    let n := values.length
    let idx : ℚ := ((n : ℚ) - 1) * q
    let lo : Int := pyInt idx
    let hi : Int := min (lo + 1) ((n : Int) - 1)
    let frac : ℚ := idx - (lo : ℚ)
    match pyGet values lo, pyGet values hi with
    | some vlo, some vhi => some (vlo + (vhi - vlo) * frac)
    | _, _ => none

/-- The post-processing of `DecisionLoop._fetch_today_forecast_ct`:
last-write-wins dedup of `(timestamp, value)` records by timestamp
(`prices_by_time[ts] = value` on a dict), keyed insertion order. -/
def pricesByTime (records : List (Nat × ℚ)) : List (Nat × ℚ) :=
  records.foldl
    (fun acc r =>
      if acc.any (fun p => p.1 = r.1) then
        acc.map (fun p => if p.1 = r.1 then (r.1, r.2) else p)
      else acc ++ [r])
    []

/-- The value list returned by `_fetch_today_forecast_ct`:
`sorted(prices_by_time.values())`. -/
def fetchTodayForecast (records : List (Nat × ℚ)) : List ℚ :=
  ((pricesByTime records).map (fun p => p.2)).insertionSort (· ≤ ·)

/-- The threshold comparison of `DecisionLoop._tick` once `current_price`
and a nonempty `today_prices` are at hand, with `p25`/`p75` already
computed. -/
def decisionRule (price p25 p75 : ℚ) : DecisionResult :=
  let spread := p75 - p25
  if price ≤ p25 ∧ 8 ≤ spread then
    { mode := .CHARGE, target_w := 3000, reason := .chargeBranch price p25 spread }
  else if p75 ≤ price ∧ 8 ≤ spread then
    { mode := .DISCHARGE, target_w := 3000, reason := .dischargeBranch price p75 spread }
  else
    { mode := .HOLD, target_w := 0, reason := .holdBranch price p25 p75 spread }

/-- Model of `DecisionLoop._tick`, with the two store queries supplied as results:
`Except.error ()` models a query raising.  The returned value is the
`DecisionResult` assigned to `_current_result`, or `Except.error ()` when
the tick raises before that assignment. -/
def decisionTick (qCurrent : Except Unit (Option ℚ))
    (qToday : Except Unit (List ℚ)) : Except Unit DecisionResult := do
  let current_price ← qCurrent
  let today_prices ← qToday
  match current_price with
  | none => pure { mode := .HOLD, target_w := 0, reason := .missingCurrentPrice }
  | some price =>
    if today_prices.isEmpty then
      pure { mode := .HOLD, target_w := 0, reason := .missingTodayForecast }
    else
      match percentile today_prices (1/4), percentile today_prices (3/4) with
      | some p25, some p75 => pure (decisionRule price p25 p75)
      | _, _ => throw ()

/-- One iteration of `DecisionLoop.run_forever`: `_tick` under
`try/except` — on any exception the previous `_current_result` stands and
the loop continues (the error never propagates). -/
def runForeverIter (st : DecisionResult) (qCurrent : Except Unit (Option ℚ))
    (qToday : Except Unit (List ℚ)) : DecisionResult :=
  match decisionTick qCurrent qToday with
  | .ok r => r
  | .error _ => st

/-! ## Actuation dispatcher (src/ems/loops/actuation.py) -/

/-- Log events the dispatcher can emit in `_tick`; `dry_run` influences
logging only. -/
inductive ActLog
  | newCommand (decision : Mode) (previous : Option Mode) (dry : Bool)
  | dryRunSkip (decision : Mode)
deriving DecidableEq, Repr

/-- Result of one `ActuationLoop._tick`: the new `_last_sent_command`,
whether the non-trivial branch ran (a dispatch action), and the log
events emitted. -/
structure ActTickResult where
  last : Option Mode
  dispatched : Bool
  logs : List ActLog
deriving DecidableEq, Repr

/-- Model of `ActuationLoop._tick`: compare the decision engine's current mode with
`_last_sent_command`; on equality return immediately, otherwise log (and,
under `dry_run`, log the skip) and record the new last-sent command. -/
def actuationTick (dryRun : Bool) (last : Option Mode) (decision : Mode) :
    ActTickResult :=
  if some decision = last then
    { last := last, dispatched := false, logs := [] }
  else
    { last := some decision
      dispatched := true
      logs := [.newCommand decision last dryRun] ++
        (if dryRun then [.dryRunSkip decision] else []) }

/-- Repeated `ActuationLoop._tick` over a sequence of observed decision
modes: final `_last_sent_command` and the list of dispatched modes in
order. -/
def actuationRun (dryRun : Bool) (last : Option Mode) :
    List Mode → Option Mode × List Mode
  | [] => (last, [])
  | d :: ds =>
    let r := actuationTick dryRun last d
    let rest := actuationRun dryRun r.last ds
    (rest.1, (if r.dispatched then [d] else []) ++ rest.2)

/-- The trace of `_last_sent_command` values after each tick of a
sequence. -/
def actuationLastTrace (dryRun : Bool) (last : Option Mode) :
    List Mode → List (Option Mode)
  | [] => []
  | d :: ds =>
    let r := actuationTick dryRun last d
    r.last :: actuationLastTrace dryRun r.last ds

/-! ## Backoff-retrying scheduler (src/ems/collectors/base.py) -/

/-- Value of `BaseCollector._max_backoff`. -/
def maxBackoff : Nat := 300

/-- Value of `SolcastCollector.interval_sec`. -/
def solcastIntervalSec : Nat := 900

/-- Value of `TibberCollector.interval_sec`. -/
def tibberIntervalSec : Nat := 300

/-- One iteration of `BaseCollector.run_forever`, abstracted over whether
`_collect` raised: returns the new `_consecutive_errors` count and the
sleep delay chosen before the next tick.  The error count is carried as
an `Int` because the Python attribute is a plain integer. -/
def collectorStep (intervalSec : Nat) (errors : Int) (success : Bool) :
    Int × Nat :=
  if success then (0, intervalSec)
  else
    let e := errors + 1
    (e, min (intervalSec * 2 ^ (e - 1).toNat) maxBackoff)

/-- The `_consecutive_errors` value after a trace of tick outcomes
(`true` = `_collect` returned, `false` = it raised), starting from the
constructor's `0`. -/
def errorsAfter (trace : List Bool) : Int :=
  trace.foldl (fun e s => (collectorStep 60 e s).1) 0

/-! ## Quota-gated Solcast collector (src/ems/collectors/solcast.py) -/

/-- Value of `SolcastCollector.FETCH_HOURS_UTC`. -/
def FETCH_HOURS_UTC : List Nat := [5, 9, 13, 17, 21]

/-- The mutable quota state of `SolcastCollector`.  The UTC date string
`_daily_calls_date` is modelled as a `Nat` day index, with `0` playing the
role of the initial `""` (real days are numbered from `1`). -/
structure SolcastState where
  last_fetch_hour : Option Nat
  daily_calls : Nat
  daily_calls_date : Nat
deriving DecidableEq, Repr

/-- The state after `SolcastCollector.__init__`. -/
def solcastInit : SolcastState :=
  { last_fetch_hour := none, daily_calls := 0, daily_calls_date := 0 }

/-- A wall-clock instant as the collector reads it: UTC day index and hour
of day. -/
structure UtcNow where
  day : Nat
  hour : Nat
deriving DecidableEq, Repr

/-- Model of `SolcastCollector._reset_daily_counter_if_needed`. -/
def resetDailyCounterIfNeeded (now : UtcNow) (st : SolcastState) :
    SolcastState :=
  if now.day ≠ st.daily_calls_date then
    { st with daily_calls := 0, daily_calls_date := now.day }
  else st

/-- Model of `SolcastCollector._should_fetch`, returning the decision together with
the (possibly daily-reset) state. -/
def shouldFetch (now : UtcNow) (st : SolcastState) : Bool × SolcastState :=
  if now.hour ∉ FETCH_HOURS_UTC then (false, st)
  else if st.last_fetch_hour = some now.hour then (false, st)
  else
    let st' := resetDailyCounterIfNeeded now st
    if 10 ≤ st'.daily_calls then (false, st')
    else (true, st')

/-- How one `SolcastCollector._collect` tick ends, as seen by the
scheduler wrapper: a quota skip, a normal return with nothing to write,
a successful batched write of `n` points, or the store write raising
(the only way this tick propagates an exception). -/
inductive SolcastOutcome
  | skipped
  | noData
  | wrote (n : Nat)
  | writeError
deriving DecidableEq, Repr

/-- Whether a tick outcome raises out of `_collect` into the scheduler
wrapper (counting as a backoff-triggering failure there). -/
def outcomeRaises : SolcastOutcome → Bool
  | .writeError => true
  | _ => false

/-- Model of `SolcastCollector._collect`.  The two sub-sources are the `se` and
`sw` sites, in iteration order; `some k` models `_fetch_site` succeeding
with `k` forecast points, `none` models it raising (caught, logged, and
skipped).  `writeOk` models whether the store write succeeds when
attempted.  Per the source: each successful site fetch increments
`_daily_calls`; the batched write and the `_last_fetch_hour` update happen
only if at least one point was collected, and `_last_fetch_hour` is
updated only after the write returns. -/
def solcastCollect (now : UtcNow) (siteSE siteSW : Option Nat)
    (writeOk : Bool) (st : SolcastState) : SolcastState × SolcastOutcome :=
  let gate := shouldFetch now st
  if !gate.1 then (gate.2, .skipped)
  else
    let st1 := gate.2
    let pts := (siteSE.getD 0) + (siteSW.getD 0)
    let calls := (if siteSE.isSome then 1 else 0) + (if siteSW.isSome then 1 else 0)
    let st2 := { st1 with daily_calls := st1.daily_calls + calls }
    if 0 < pts then
      if writeOk then
        ({ st2 with last_fetch_hour := some now.hour }, .wrote pts)
      else (st2, .writeError)
    else (st2, .noData)

/-- The quota state after a sequence of `_collect` ticks, each input being
the wall clock, the two site outcomes and the store-write outcome of that
tick. -/
def solcastRun (inputs : List (UtcNow × Option Nat × Option Nat × Bool))
    (st : SolcastState) : SolcastState :=
  inputs.foldl (fun s i => (solcastCollect i.1 i.2.1 i.2.2.1 i.2.2.2 s).1) st

/-! ## Tibber price collector (src/ems/collectors/tibber.py) -/

/-- One entry of the Tibber `priceInfo` payload (`current` or an element
of `today`/`tomorrow`).  `startsAt` timestamps are modelled as `Nat`. -/
structure PriceEntry where
  total : ℚ
  energy : ℚ
  tax : ℚ
  startsAt : Nat
  level : String
deriving DecidableEq, Repr

/-- The `priceInfo` object: optional current price plus the two forecast
curves. -/
structure PriceInfo where
  current : Option PriceEntry
  today : List PriceEntry
  tomorrow : List PriceEntry
deriving DecidableEq, Repr

/-- An InfluxDB point as built by the collector. -/
structure TPoint where
  measurement : String
  tags : List (String × String)
  fields : List (String × ℚ)
  time : Nat
deriving DecidableEq, Repr

/-- The `electricity_price` point for the current price, timestamped with
the tick's wall clock `now`. -/
def currentPricePoint (now : Nat) (c : PriceEntry) : TPoint :=
  { measurement := "electricity_price"
    tags := [("source", "tibber"), ("level", c.level)]
    fields := [("total", c.total), ("energy", c.energy), ("tax", c.tax)]
    time := now }

/-- One `electricity_price_forecast` point, timestamped with the entry's
`startsAt`. -/
def forecastPoint (period : String) (p : PriceEntry) : TPoint :=
  { measurement := "electricity_price_forecast"
    tags := [("source", "tibber"), ("period", period), ("level", p.level)]
    fields := [("total", p.total), ("energy", p.energy), ("tax", p.tax)]
    time := p.startsAt }

/-- The forecast batch built from `today` then `tomorrow`. -/
def forecastPricePoints (pi : PriceInfo) : List TPoint :=
  pi.today.map (forecastPoint "today") ++ pi.tomorrow.map (forecastPoint "tomorrow")

/-- The dedup fingerprint: the Python code hashes the tuple of
`(total, startsAt)` pairs over `today` then `tomorrow`; the hash is
modelled as the pair list itself (an injective fingerprint). -/
def forecastFingerprint (pi : PriceInfo) : List (ℚ × Nat) :=
  (pi.today ++ pi.tomorrow).map (fun p => (p.total, p.startsAt))

/-- State of `TibberCollector`: its only mutable field, `_last_forecast_hash`. -/
structure TibberState where
  last_forecast_hash : Option (List (ℚ × Nat))
deriving DecidableEq, Repr

/-- The state after `TibberCollector.__init__`. -/
def tibberInit : TibberState := { last_forecast_hash := none }

/-- Model of `TibberCollector._collect` after a successful fetch and payload
extraction: builds the point batch (current point first, then — only when
the fingerprint differs from `_last_forecast_hash` — the forecast batch,
updating the stored hash).  Returns the new state and the batch passed to
`_write_points`. -/
def tibberCollect (now : Nat) (st : TibberState) (pi : PriceInfo) :
    TibberState × List TPoint :=
  let currentPts := match pi.current with
    | some c => [currentPricePoint now c]
    | none => []
  let fh := forecastFingerprint pi
  if some fh ≠ st.last_forecast_hash then
    ({ last_forecast_hash := some fh }, currentPts ++ forecastPricePoints pi)
  else (st, currentPts)

/-! ## Helper lemmas -/

/-- Helper: a decision tick whose two queries succeed, with a current
price and a nonempty forecast list, computes `decisionRule` on the two
percentiles. -/
theorem decisionTick_compute (price : ℚ) (today : List ℚ) (p25 p75 : ℚ)
    (h : today.isEmpty = false) (h25 : percentile today (1/4) = some p25)
    (h75 : percentile today (3/4) = some p75) :
    decisionTick (.ok (some price)) (.ok today) = .ok (decisionRule price p25 p75) := by
  simp [decisionTick, Bind.bind, Except.bind, Pure.pure, Except.pure, h, h25, h75, -one_div]

/-- Helper: the interpolation shape of `percentile` on a list of length at
least two, for a quantile between 0 and 1. -/
theorem percentile_interp (values : List ℚ) (q : ℚ) (h2 : 2 ≤ values.length)
    (hq0 : 0 ≤ q) (hq1 : q ≤ 1) :
    ∃ vlo vhi,
      values.get? (⌊((values.length : ℚ) - 1) * q⌋).toNat = some vlo ∧
      values.get? (min ((⌊((values.length : ℚ) - 1) * q⌋).toNat + 1) (values.length - 1)) = some vhi ∧
      percentile values q =
        some (vlo + (vhi - vlo) *
          (((values.length : ℚ) - 1) * q - ((⌊((values.length : ℚ) - 1) * q⌋ : Int) : ℚ))) := by
  have hn1 : (1 : ℚ) ≤ (values.length : ℚ) := by exact_mod_cast Nat.one_le_of_lt h2
  have hidx0 : 0 ≤ ((values.length : ℚ) - 1) * q := mul_nonneg (by linarith) hq0
  have hidxle : ((values.length : ℚ) - 1) * q ≤ (values.length : ℚ) - 1 :=
    mul_le_of_le_one_right (by linarith) hq1
  have hL0 : 0 ≤ ⌊((values.length : ℚ) - 1) * q⌋ := Int.floor_nonneg.mpr hidx0
  have hLle : ⌊((values.length : ℚ) - 1) * q⌋ ≤ (values.length : Int) - 1 := by
    have hfl : ((⌊((values.length : ℚ) - 1) * q⌋ : Int) : ℚ) ≤ ((values.length : ℚ) - 1) * q :=
      Int.floor_le _
    have hcast : ((⌊((values.length : ℚ) - 1) * q⌋ : Int) : ℚ) ≤ (values.length : ℚ) - 1 :=
      le_trans hfl hidxle
    exact_mod_cast hcast
  have hLlt : (⌊((values.length : ℚ) - 1) * q⌋).toNat < values.length := by omega
  have hHlt : (min (⌊((values.length : ℚ) - 1) * q⌋ + 1) ((values.length : Int) - 1)).toNat < values.length := by omega
  have hHeq : (min (⌊((values.length : ℚ) - 1) * q⌋ + 1) ((values.length : Int) - 1)).toNat
      = min ((⌊((values.length : ℚ) - 1) * q⌋).toNat + 1) (values.length - 1) := by omega
  have hH0 : (0 : Int) ≤ min (⌊((values.length : ℚ) - 1) * q⌋ + 1) ((values.length : Int) - 1) := by omega
  refine ⟨values.get ⟨_, hLlt⟩, values.get ⟨_, hHlt⟩, List.get?_eq_get hLlt, ?_, ?_⟩
  · rw [← hHeq]; exact List.get?_eq_get hHlt
  · have hne : values.isEmpty = false := by
      cases values with
      | nil => simp at h2
      | cons a l => rfl
    have hlen : ¬ values.length = 1 := by omega
    simp only [percentile, hne, Bool.false_eq_true, if_false, hlen, if_false,
      pyInt, hidx0, if_pos, pyGet, hL0, hH0]
    rw [List.get?_eq_get hLlt, List.get?_eq_get hHlt]

/-! ## Claim theorems -/

/-- C1 counterexample: with the latest current price 18.0 and today's
forecast values [15, 18, 25, 45], the tick does NOT compute P25 = 16.5
and does NOT publish a CHARGE decision (contrary to the claimed
end-to-end scenario). -/
theorem C1_counterexample :
    percentile (fetchTodayForecast [(0, 15), (1, 18), (2, 25), (3, 45)]) (1/4) ≠ some (33/2) ∧
    (decisionTick (.ok (some 18))
        (.ok (fetchTodayForecast [(0, 15), (1, 18), (2, 25), (3, 45)]))).toOption.map
      DecisionResult.mode ≠ some .CHARGE := by
  have hlist : fetchTodayForecast [(0, 15), (1, 18), (2, 25), (3, 45)] = [15, 18, 25, 45] := by
    norm_num [fetchTodayForecast, pricesByTime, List.insertionSort, List.orderedInsert]
  have h25 : percentile [15, 18, 25, 45] (1/4) = some (69/4) := by
    norm_num [percentile, pyInt, pyGet, Int.toNat]
  have h75 : percentile [15, 18, 25, 45] (3/4) = some 30 := by
    norm_num [percentile, pyInt, pyGet, Int.toNat]
  constructor
  · rw [hlist, h25]; norm_num
  · rw [hlist, decisionTick_compute 18 [15, 18, 25, 45] (69/4) 30 rfl h25 h75]
    have hdr : decisionRule 18 (69/4) 30 = ⟨.HOLD, 0, .holdBranch 18 (69/4) 30 (51/4)⟩ := by
      norm_num [decisionRule]
    rw [hdr]
    simp [Except.toOption]

/-- C1 (amended): when the latest current-price sample is 18.0 and
today's forecast value set is [15, 18, 25, 45], the tick computes
P25 = 17.25, P75 = 30.0, spread = 12.75, and publishes a Decision with
mode HOLD and target power 0. -/
theorem C1_scenario :
    fetchTodayForecast [(0, 15), (1, 18), (2, 25), (3, 45)] = [15, 18, 25, 45] ∧
    percentile [15, 18, 25, 45] (1/4) = some (69/4) ∧
    percentile [15, 18, 25, 45] (3/4) = some 30 ∧
    decisionTick (.ok (some 18)) (.ok [15, 18, 25, 45]) =
      .ok ⟨.HOLD, 0, .holdBranch 18 (69/4) 30 (51/4)⟩ := by
  have h25 : percentile [15, 18, 25, 45] (1/4) = some (69/4) := by
    norm_num [percentile, pyInt, pyGet, Int.toNat]
  have h75 : percentile [15, 18, 25, 45] (3/4) = some 30 := by
    norm_num [percentile, pyInt, pyGet, Int.toNat]
  refine ⟨?_, h25, h75, ?_⟩
  · norm_num [fetchTodayForecast, pricesByTime, List.insertionSort, List.orderedInsert]
  · rw [decisionTick_compute 18 [15, 18, 25, 45] (69/4) 30 rfl h25 h75]
    norm_num [decisionRule]

/-- C4: if either store query raises during a decision tick, the
previously published decision remains in effect unchanged — the
run-forever iteration returns the previous state, and (being a total
function) never lets the error escape the wrapper. -/
theorem C4_error_keeps_decision :
    (∀ (st : DecisionResult) (qToday : Except Unit (List ℚ)),
      runForeverIter st (.error ()) qToday = st) ∧
    (∀ (st : DecisionResult) (qCurrent : Except Unit (Option ℚ)),
      runForeverIter st qCurrent (.error ()) = st) := by
  refine ⟨fun st qToday => rfl, fun st qCurrent => ?_⟩
  cases qCurrent with
  | error e => rfl
  | ok v => rfl

/-- C6: percentile([10], 0.25) = 10; percentile([10,20,30,40], 0.25) =
17.5; percentile([10,20,30,40], 0.75) = 32.5; the empty list is an error
(modelled as `none`); and for any list of at least two sorted values and
quantile q in [0,1], the result is linear interpolation at index
(n-1)*q between the two bracketing values. -/
theorem C6_percentile :
    percentile [10] (1/4) = some 10 ∧
    percentile [10, 20, 30, 40] (1/4) = some (35/2) ∧
    percentile [10, 20, 30, 40] (3/4) = some (65/2) ∧
    (∀ q : ℚ, percentile [] q = none) ∧
    (∀ (values : List ℚ) (q : ℚ), 2 ≤ values.length → values.Sorted (· ≤ ·) →
      0 ≤ q → q ≤ 1 →
      ∃ vlo vhi,
        values.get? (⌊((values.length : ℚ) - 1) * q⌋).toNat = some vlo ∧
        values.get? (min ((⌊((values.length : ℚ) - 1) * q⌋).toNat + 1) (values.length - 1)) = some vhi ∧
        percentile values q =
          some (vlo + (vhi - vlo) *
            (((values.length : ℚ) - 1) * q - ((⌊((values.length : ℚ) - 1) * q⌋ : Int) : ℚ)))) :=
  ⟨by norm_num [percentile], by norm_num [percentile, pyInt, pyGet, Int.toNat],
   by norm_num [percentile, pyInt, pyGet, Int.toNat], fun _ => rfl,
   fun values q h2 _ hq0 hq1 => percentile_interp values q h2 hq0 hq1⟩

/-- C6 witness: the interpolation component of the claim instantiated at
the sorted two-element list [10, 20] and quantile 1/2. -/
theorem C6_witness :
    ∃ vlo vhi,
      ([10, 20] : List ℚ).get? (⌊((([10, 20] : List ℚ).length : ℚ) - 1) * (1/2)⌋).toNat = some vlo ∧
      ([10, 20] : List ℚ).get? (min ((⌊((([10, 20] : List ℚ).length : ℚ) - 1) * (1/2)⌋).toNat + 1)
        (([10, 20] : List ℚ).length - 1)) = some vhi ∧
      percentile [10, 20] (1/2) =
        some (vlo + (vhi - vlo) *
          (((([10, 20] : List ℚ).length : ℚ) - 1) * (1/2) -
            ((⌊((([10, 20] : List ℚ).length : ℚ) - 1) * (1/2)⌋ : Int) : ℚ))) :=
  C6_percentile.2.2.2.2 [10, 20] (1/2) (by norm_num) (by norm_num [List.sorted_cons])
    (by norm_num) (by norm_num)

/-- C7: with today's forecast [0, 20, 30, 40, 60] (so P25 = 20, P75 = 40,
spread = 20), a current price of exactly 20 yields CHARGE, exactly 40
yields DISCHARGE, and 30 yields HOLD; and whenever the computed spread is
below 8, the decision is HOLD with target power 0 for every current
price. -/
theorem C7_decision_boundaries :
    decisionTick (.ok (some 20)) (.ok [0, 20, 30, 40, 60]) =
      .ok ⟨.CHARGE, 3000, .chargeBranch 20 20 20⟩ ∧
    decisionTick (.ok (some 40)) (.ok [0, 20, 30, 40, 60]) =
      .ok ⟨.DISCHARGE, 3000, .dischargeBranch 40 40 20⟩ ∧
    decisionTick (.ok (some 30)) (.ok [0, 20, 30, 40, 60]) =
      .ok ⟨.HOLD, 0, .holdBranch 30 20 40 20⟩ ∧
    (∀ (price p25 p75 : ℚ) (today : List ℚ), today.isEmpty = false →
      percentile today (1/4) = some p25 → percentile today (3/4) = some p75 →
      p75 - p25 < 8 →
      decisionTick (.ok (some price)) (.ok today) =
        .ok ⟨.HOLD, 0, .holdBranch price p25 p75 (p75 - p25)⟩) := by
  have h25 : percentile [0, 20, 30, 40, 60] (1/4) = some 20 := by
    norm_num [percentile, pyInt, pyGet, Int.toNat]
  have h75 : percentile [0, 20, 30, 40, 60] (3/4) = some 40 := by
    norm_num [percentile, pyInt, pyGet, Int.toNat]
  refine ⟨?_, ?_, ?_, ?_⟩
  · rw [decisionTick_compute 20 [0, 20, 30, 40, 60] 20 40 rfl h25 h75]; norm_num [decisionRule]
  · rw [decisionTick_compute 40 [0, 20, 30, 40, 60] 20 40 rfl h25 h75]; norm_num [decisionRule]
  · rw [decisionTick_compute 30 [0, 20, 30, 40, 60] 20 40 rfl h25 h75]; norm_num [decisionRule]
  · intro price p25 p75 today hne hp25 hp75 hsp
    rw [decisionTick_compute price today p25 p75 hne hp25 hp75]
    have h1 : ¬ (price ≤ p25 ∧ 8 ≤ p75 - p25) := by rintro ⟨-, h⟩; linarith
    have hh2 : ¬ (p75 ≤ price ∧ 8 ≤ p75 - p25) := by rintro ⟨-, h⟩; linarith
    simp [decisionRule, h1, hh2]

/-- C7 witness: the low-spread component of the claim instantiated at
current price 0 and today's forecast [1, 2] (spread 1/2 < 8). -/
theorem C7_witness :
    decisionTick (.ok (some 0)) (.ok [1, 2]) =
      .ok ⟨.HOLD, 0, .holdBranch 0 (5/4) (7/4) (7/4 - 5/4)⟩ :=
  C7_decision_boundaries.2.2.2 0 (5/4) (7/4) [1, 2] rfl
    (by norm_num [percentile, pyInt, pyGet, Int.toNat])
    (by norm_num [percentile, pyInt, pyGet, Int.toNat])
    (by norm_num)

/-- Helper: repeating the mode already recorded as last-sent produces no
dispatches and leaves the state unchanged. -/
theorem actuationRun_same (dr : Bool) (d : Mode) :
    ∀ N, actuationRun dr (some d) (List.replicate N d) = (some d, []) := by
  intro N
  induction N with
  | zero => rfl
  | succ n ih => simp [List.replicate_succ, actuationRun, actuationTick, ih]

/-- Helper: every mode the dispatcher emits differs from the last-sent
mode at the time, so the dispatched sequence from state `some m` is a
difference chain rooted at `m`. -/
theorem actuationChain (dr : Bool) :
    ∀ (ds : List Mode) (m : Mode),
      List.Chain (fun a b => a ≠ b) m (actuationRun dr (some m) ds).2 := by
  intro ds
  induction ds with
  | nil => intro m; exact List.Chain.nil
  | cons d ds ih =>
    intro m
    by_cases h : d = m
    · subst h
      simpa [actuationRun, actuationTick] using ih d
    · have h' : ¬ some d = some m := by simpa using h
      simp only [actuationRun, actuationTick, h', if_false]
      simp [List.chain_cons]
      exact ⟨fun hh => h hh.symm, ih d⟩

/-- C5: if the observed decision mode equals `d` on `N ≥ 1` consecutive
dispatcher ticks and the last-sent state differs from `d` at the start,
exactly one dispatch action occurs (it dispatches `d`) and the final
last-sent state is `d`; moreover, on any tick sequence, no two
consecutively dispatched modes are equal. -/
theorem C5_dispatch_idempotent :
    (∀ (dr : Bool) (l : Option Mode) (d : Mode) (N : Nat), 1 ≤ N → l ≠ some d →
      actuationRun dr l (List.replicate N d) = (some d, [d])) ∧
    (∀ (dr : Bool) (l : Option Mode) (ds : List Mode),
      List.Chain' (fun a b => a ≠ b) (actuationRun dr l ds).2) := by
  constructor
  · intro dr l d N hN hl
    cases N with
    | zero => omega
    | succ n =>
      have hne : ¬ (some d = l) := fun h => hl h.symm
      simp [List.replicate_succ, actuationRun, actuationTick, hne, actuationRun_same]
  · intro dr l ds
    induction ds generalizing l with
    | nil => simp [actuationRun]
    | cons d ds ih =>
      by_cases h : some d = l
      · simpa [actuationRun, actuationTick, h] using ih l
      · simp only [actuationRun, actuationTick, h, if_false]
        exact actuationChain dr ds d

/-- C5 witness: three consecutive CHARGE decisions from a fresh
dispatcher produce exactly one dispatch, and a CHARGE, HOLD sequence
dispatches no mode twice in a row. -/
theorem C5_witness :
    actuationRun false none (List.replicate 3 .CHARGE) = (some .CHARGE, [.CHARGE]) ∧
    List.Chain' (fun a b => a ≠ b) (actuationRun false none [.CHARGE, .HOLD]).2 :=
  ⟨C5_dispatch_idempotent.1 false none .CHARGE 3 (by decide) (by decide),
   C5_dispatch_idempotent.2 false none [.CHARGE, .HOLD]⟩

/-- C10: the `dry_run` flag has no influence on the dispatcher's
last-sent-command state: for every initial state and decision sequence,
the per-tick state traces with and without `dry_run` coincide (the flag
only changes the emitted log events). -/
theorem C10_dry_run_no_state_effect :
    ∀ (l : Option Mode) (ds : List Mode),
      actuationLastTrace true l ds = actuationLastTrace false l ds ∧
      (actuationRun true l ds).1 = (actuationRun false l ds).1 := by
  intro l ds
  induction ds generalizing l with
  | nil => exact ⟨rfl, rfl⟩
  | cons d ds ih =>
    by_cases h : some d = l <;>
      simp [actuationLastTrace, actuationRun, actuationTick, h, (ih _).1, (ih _).2]

/-- C8 counterexample: with Solcast's nominal interval of 900 s, the
failure immediately after a success gets delay min(900, 300) = 300 s,
not `interval * 2^0` = 900 s as the claim's reset clause states. -/
theorem C8_counterexample :
    (collectorStep solcastIntervalSec (collectorStep solcastIntervalSec 5 true).1 false).2 = 300 ∧
    (collectorStep solcastIntervalSec (collectorStep solcastIntervalSec 5 true).1 false).2 ≠
      solcastIntervalSec * 2 ^ 0 := by decide

/-- C8 (amended): for every consecutive-failure count f ≥ 1 the computed
delay is min(interval * 2^(f-1), 300 s); a successful tick resets the
failure count to 0, so the next failure's delay is again
min(interval * 2^0, 300 s) (equal to the nominal interval only when that
interval is at most 300 s); and the count never goes negative. -/
theorem C8_backoff :
    (∀ (intervalSec : Nat) (f : Nat), 1 ≤ f →
      collectorStep intervalSec ((f : Int) - 1) false =
        ((f : Int), min (intervalSec * 2 ^ (f - 1)) maxBackoff)) ∧
    (∀ (intervalSec : Nat) (errors : Int), (collectorStep intervalSec errors true).1 = 0) ∧
    (∀ intervalSec : Nat,
      (collectorStep intervalSec 0 false).2 = min (intervalSec * 2 ^ 0) maxBackoff) ∧
    (∀ trace : List Bool, 0 ≤ errorsAfter trace) := by
  refine ⟨?_, fun i e => rfl, fun i => rfl, ?_⟩
  · intro i f hf
    simp only [collectorStep, Bool.false_eq_true, if_false]
    have h2 : ((f : Int) - 1).toNat = f - 1 := by omega
    simp [h2]
  · have key : ∀ (trace : List Bool) (e : Int), 0 ≤ e →
        0 ≤ trace.foldl (fun e s => (collectorStep 60 e s).1) e := by
      intro trace
      induction trace with
      | nil => intro e he; simpa using he
      | cons s tr ih =>
        intro e he
        simp only [List.foldl_cons]
        apply ih
        cases s <;> simp [collectorStep] <;> omega
    intro trace
    exact key trace 0 le_rfl

/-- C8 witness: the backoff formula instantiated at failure count 3 with
a 60 s interval, and the post-success reset delay at Solcast's 900 s
interval. -/
theorem C8_witness :
    collectorStep 60 ((3 : Int) - 1) false = ((3 : Int), min (60 * 2 ^ (3 - 1)) maxBackoff) ∧
    (collectorStep 900 0 false).2 = min (900 * 2 ^ 0) maxBackoff :=
  ⟨C8_backoff.1 60 3 (by decide), C8_backoff.2.2.1 900⟩

/-- Helper: `_should_fetch` never increases the stored daily-call
counter. -/
theorem shouldFetch_calls_le (now : UtcNow) (st : SolcastState) :
    (shouldFetch now st).2.daily_calls ≤ st.daily_calls := by
  simp only [shouldFetch, resetDailyCounterIfNeeded]
  split_ifs <;> simp

/-- Helper: when `_should_fetch` grants permission, the (possibly reset)
counter is at most 9. -/
theorem shouldFetch_true_calls (now : UtcNow) (st : SolcastState)
    (h : (shouldFetch now st).1 = true) :
    (shouldFetch now st).2.daily_calls ≤ 9 := by
  simp only [shouldFetch, resetDailyCounterIfNeeded] at h ⊢
  split_ifs at h ⊢ with h1 h2 h3 h4 <;> simp_all <;> omega

/-- Helper: one `_collect` tick preserves the bound `daily_calls ≤ 11`
(a granted tick starts from a counter of at most 9 and adds at most one
per site). -/
theorem solcastCollect_calls_le (now : UtcNow) (se sw : Option Nat) (wo : Bool)
    (st : SolcastState) (h : st.daily_calls ≤ 11) :
    (solcastCollect now se sw wo st).1.daily_calls ≤ 11 := by
  by_cases hg : (shouldFetch now st).1
  · have h9 := shouldFetch_true_calls now st hg
    simp only [solcastCollect, hg, Bool.not_true, Bool.false_eq_true, if_false]
    split_ifs <;> cases se <;> cases sw <;> simp <;> omega
  · have hle := shouldFetch_calls_le now st
    have hg' : (shouldFetch now st).1 = false := by simpa using hg
    simp only [solcastCollect, hg', Bool.not_false, if_true]
    omega

/-- C2 counterexample: a six-tick trace within one UTC day (day 1,
hour 5) in which store writes fail five times drives `_daily_calls` to
11, exceeding the configured cap of 10. -/
theorem C2_counterexample :
    (solcastRun
      [(⟨1, 5⟩, some 1, none, false), (⟨1, 5⟩, some 1, some 1, false),
       (⟨1, 5⟩, some 1, some 1, false), (⟨1, 5⟩, some 1, some 1, false),
       (⟨1, 5⟩, some 1, some 1, false), (⟨1, 5⟩, some 1, some 1, true)]
      solcastInit).daily_calls = 11 ∧
    ¬ (solcastRun
      [(⟨1, 5⟩, some 1, none, false), (⟨1, 5⟩, some 1, some 1, false),
       (⟨1, 5⟩, some 1, some 1, false), (⟨1, 5⟩, some 1, some 1, false),
       (⟨1, 5⟩, some 1, some 1, false), (⟨1, 5⟩, some 1, some 1, true)]
      solcastInit).daily_calls ≤ 10 := by decide

/-- C2 (amended): the calls-used-today counter never exceeds 11 — the cap
of 10 plus one, because a granted tick is checked against the cap before
fetching and then increments once per site — and once the counter has
reached 10, `_should_fetch` returns false until the UTC date changes. -/
theorem C2_quota :
    (∀ inputs, (solcastRun inputs solcastInit).daily_calls ≤ 11) ∧
    (∀ (now : UtcNow) (st : SolcastState), 10 ≤ st.daily_calls →
      st.daily_calls_date = now.day → (shouldFetch now st).1 = false) := by
  constructor
  · have key : ∀ (inputs : List (UtcNow × Option Nat × Option Nat × Bool))
        (st : SolcastState), st.daily_calls ≤ 11 →
        (solcastRun inputs st).daily_calls ≤ 11 := by
      intro inputs
      induction inputs with
      | nil => intro st h; simpa [solcastRun] using h
      | cons i tl ih =>
        intro st h
        simp only [solcastRun, List.foldl_cons]
        exact ih _ (solcastCollect_calls_le i.1 i.2.1 i.2.2.1 i.2.2.2 st h)
    intro inputs
    exact key inputs solcastInit (by simp [solcastInit])
  · intro now st hc hd
    have hreset : resetDailyCounterIfNeeded now st = st := by
      simp [resetDailyCounterIfNeeded, hd]
    simp only [shouldFetch, hreset]
    split_ifs with h1 h2 h3 <;> first | rfl | omega

/-- C2 witness: the bound applied to the empty trace, and the at-cap
denial applied to a state with 10 calls used on the current day. -/
theorem C2_witness :
    (solcastRun [] solcastInit).daily_calls ≤ 11 ∧
    (shouldFetch ⟨3, 5⟩
      { last_fetch_hour := none, daily_calls := 10, daily_calls_date := 3 }).1 = false :=
  ⟨C2_quota.1 [],
   C2_quota.2 ⟨3, 5⟩ { last_fetch_hour := none, daily_calls := 10, daily_calls_date := 3 }
     (by decide) rfl⟩

/-- Helper: `_should_fetch` never modifies `_last_fetch_hour`. -/
theorem shouldFetch_hour_eq (now : UtcNow) (st : SolcastState) :
    (shouldFetch now st).2.last_fetch_hour = st.last_fetch_hour := by
  simp only [shouldFetch, resetDailyCounterIfNeeded]
  split_ifs <;> rfl

/-- C3 counterexample: on a granted tick in which both site fetches fail,
`_collect` returns normally with nothing to write — it does not raise to
the scheduler wrapper, so no backoff-triggering failure occurs
(contrary to the claim that total sub-source failure raises). -/
theorem C3_counterexample :
    (shouldFetch ⟨1, 5⟩ solcastInit).1 = true ∧
    outcomeRaises (solcastCollect ⟨1, 5⟩ none none true solcastInit).2 = false ∧
    (solcastCollect ⟨1, 5⟩ none none true solcastInit).2 = .noData := by decide

/-- C3 (amended): on a granted tick, if every sub-source fetch fails the
tick completes normally with nothing written (no exception, no backoff,
`_last_fetch_hour` unchanged); and whenever at least one sub-source
succeeds with a nonempty result — whichever sites those are — the
successful sub-sources' points are exactly the batch handed to the
store write, and the only way such a tick can end as a scheduler-level
failure is the store write itself raising, never a sub-source failure:
with the store write functioning, the results are written and the tick
does not raise. -/
theorem C3_subsources :
    ∀ (now : UtcNow) (st : SolcastState), (shouldFetch now st).1 = true →
      (∀ writeOk,
        (solcastCollect now none none writeOk st).2 = .noData ∧
        outcomeRaises (solcastCollect now none none writeOk st).2 = false ∧
        (solcastCollect now none none writeOk st).1.last_fetch_hour = st.last_fetch_hour) ∧
      (∀ (oSE oSW : Option Nat) (writeOk : Bool), 0 < oSE.getD 0 + oSW.getD 0 →
        (solcastCollect now oSE oSW writeOk st).2 =
          (if writeOk then .wrote (oSE.getD 0 + oSW.getD 0) else .writeError) ∧
        (writeOk = true →
          outcomeRaises (solcastCollect now oSE oSW writeOk st).2 = false)) := by
  intro now st hg
  constructor
  · intro writeOk
    have hhour := shouldFetch_hour_eq now st
    simp only [solcastCollect, hg, Bool.not_true, Bool.false_eq_true, if_false]
    norm_num [outcomeRaises, hhour]
  · intro oSE oSW writeOk hpts
    simp only [solcastCollect, hg, Bool.not_true, Bool.false_eq_true, if_false]
    cases writeOk <;> simp [hpts, outcomeRaises]

/-- C3 witness: the cases instantiated on a fresh collector at day 1,
hour 5: both sites failing yields a normal no-data return; only the
second site succeeding (2 points) yields a successful write of those
points, as does both sites succeeding (1 + 2 points). -/
theorem C3_witness :
    (solcastCollect ⟨1, 5⟩ none none false solcastInit).2 = .noData ∧
    (solcastCollect ⟨1, 5⟩ none (some 2) true solcastInit).2 = .wrote 2 ∧
    (solcastCollect ⟨1, 5⟩ (some 1) (some 2) true solcastInit).2 = .wrote 3 :=
  ⟨((C3_subsources ⟨1, 5⟩ solcastInit (by decide)).1 false).1,
   ((C3_subsources ⟨1, 5⟩ solcastInit (by decide)).2 none (some 2) true (by decide)).1,
   ((C3_subsources ⟨1, 5⟩ solcastInit (by decide)).2 (some 1) (some 2) true (by decide)).1⟩

/-- C9: on two consecutive Tibber ticks with identical forecast data
whose fingerprint differs from the previously stored hash, the first
tick's batch is the current-price point (stamped with that tick's wall
clock) followed by the forecast batch, and the second tick's batch is
only the current-price point (stamped with the second tick's wall
clock): the forecast batch is written exactly once. -/
theorem C9_forecast_dedup :
    ∀ (now1 now2 : Nat) (st : TibberState) (pinfo : PriceInfo) (c : PriceEntry),
      pinfo.current = some c →
      st.last_forecast_hash ≠ some (forecastFingerprint pinfo) →
      (tibberCollect now1 st pinfo).2 =
        currentPricePoint now1 c :: forecastPricePoints pinfo ∧
      (tibberCollect now2 (tibberCollect now1 st pinfo).1 pinfo).2 =
        [currentPricePoint now2 c] ∧
      (tibberCollect now1 st pinfo).1.last_forecast_hash =
        some (forecastFingerprint pinfo) := by
  intro now1 now2 st pinfo c hc hne
  have hfirst : tibberCollect now1 st pinfo =
      ({ last_forecast_hash := some (forecastFingerprint pinfo) },
        currentPricePoint now1 c :: forecastPricePoints pinfo) := by
    simp [tibberCollect, hc, Ne.symm hne]
  have hsecond : tibberCollect now2
      ({ last_forecast_hash := some (forecastFingerprint pinfo) } : TibberState) pinfo =
      ({ last_forecast_hash := some (forecastFingerprint pinfo) }, [currentPricePoint now2 c]) := by
    simp [tibberCollect, hc]
  rw [hfirst]
  exact ⟨rfl, by rw [hsecond], rfl⟩

/-- C9 witness: the dedup behaviour on a fresh collector with a concrete
one-entry today curve, ticked at wall-clock times 11 and 22. -/
theorem C9_witness :
    (tibberCollect 11 tibberInit
        ⟨some ⟨1, 2, 3, 0, "NORMAL"⟩, [⟨4, 5, 6, 100, "CHEAP"⟩], []⟩).2 =
      currentPricePoint 11 ⟨1, 2, 3, 0, "NORMAL"⟩ ::
        forecastPricePoints ⟨some ⟨1, 2, 3, 0, "NORMAL"⟩, [⟨4, 5, 6, 100, "CHEAP"⟩], []⟩ ∧
    (tibberCollect 22 (tibberCollect 11 tibberInit
        ⟨some ⟨1, 2, 3, 0, "NORMAL"⟩, [⟨4, 5, 6, 100, "CHEAP"⟩], []⟩).1
        ⟨some ⟨1, 2, 3, 0, "NORMAL"⟩, [⟨4, 5, 6, 100, "CHEAP"⟩], []⟩).2 =
      [currentPricePoint 22 ⟨1, 2, 3, 0, "NORMAL"⟩] ∧
    (tibberCollect 11 tibberInit
        ⟨some ⟨1, 2, 3, 0, "NORMAL"⟩, [⟨4, 5, 6, 100, "CHEAP"⟩], []⟩).1.last_forecast_hash =
      some (forecastFingerprint ⟨some ⟨1, 2, 3, 0, "NORMAL"⟩, [⟨4, 5, 6, 100, "CHEAP"⟩], []⟩) :=
  C9_forecast_dedup 11 22 tibberInit
    ⟨some ⟨1, 2, 3, 0, "NORMAL"⟩, [⟨4, 5, 6, 100, "CHEAP"⟩], []⟩
    ⟨1, 2, 3, 0, "NORMAL"⟩ rfl (by simp [tibberInit])

end Ems
